import Mathlib

/-!
Verification of the bitcoinbrisbane/defi repository: a Uniswap-V3-style
concentrated-liquidity position manager (contracts/src/PositionManager.sol)
together with the JavaScript yield-calculation utilities
(scripts/calculateCapital.js, scripts/fetchPoolDataDirect.js).

The Solidity contract is shallowly embedded as explicit state passing over a
`Chain` record; uint256/int24 arithmetic is modelled on Nat/Int (Solidity 0.8
checked arithmetic reverts on underflow, modelled as explicit error cases where
it can fire).  The JavaScript floating-point math is idealised over ℝ.

All definitions come first; helper lemmas and the claim theorems follow.
-/

namespace Defi

/-! ## Concentration and yield math (JavaScript calculators)

`concentrationFactor` is translated from `calculateMetrics` in
scripts/fetchPoolDataDirect.js:

  const priceLower = 1 * (1 - rangePercent / 100);
  const priceUpper = 1 * (1 + rangePercent / 100);
  const concentrationFactor = 1 / (Math.sqrt(priceUpper) - Math.sqrt(priceLower));

`naiveConcentrationFactor` is translated from `displayPoolInfo` in
scripts/calculateCapital.js line 453:

  const concentrationFactor = 100 / (2 * config.position.rangePercent);
-/

noncomputable def concentrationFactor (rangePercent : ℝ) : ℝ :=
  let priceLower : ℝ := 1 * (1 - rangePercent / 100)
  let priceUpper : ℝ := 1 * (1 + rangePercent / 100)
  1 / (Real.sqrt priceUpper - Real.sqrt priceLower)

noncomputable def naiveConcentrationFactor (rangePercent : ℝ) : ℝ :=
  100 / (2 * rangePercent)

/-! ## Tick range computation (PositionManager.calculateTickRange)

Solidity source, contracts/src/PositionManager.sol lines 439-450:

  int24 tickSpacing = 60;
  int24 tickRange = (int24(uint24(rangePercent)) * 1398) / 15;
  tickLower = ((currentTick - tickRange) / tickSpacing) * tickSpacing;
  tickUpper = ((currentTick + tickRange) / tickSpacing) * tickSpacing;

Solidity division on int24 truncates toward zero; `soldiv` encodes that on ℤ
for a positive divisor (Lean's `/` on ℤ is Euclidean division, which for a
positive divisor is floor division, so truncation is obtained by negating). -/

def soldiv (a b : ℤ) : ℤ :=
  if 0 ≤ a then a / b else -((-a) / b)

def tickRangeOf (rangePercent : ℤ) : ℤ :=
  soldiv (rangePercent * 1398) 15

def calculateTickRange (rangePercent currentTick : ℤ) : ℤ × ℤ :=
  let tickSpacing : ℤ := 60
  let tickRange : ℤ := tickRangeOf rangePercent
  (soldiv (currentTick - tickRange) tickSpacing * tickSpacing,
   soldiv (currentTick + tickRange) tickSpacing * tickSpacing)

/-- Spec-side definition for the refinement claim about `calculateTickRange`,
following the specification's words (§4.1): the tick delta equivalent to
`+rangePercent` in price space under the price-to-tick relationship
`tick = floor(log(price) / log(1.0001))`. -/
noncomputable def specTickDelta (rangePercent : ℝ) : ℤ :=
  ⌊Real.log (1 + rangePercent / 100) / Real.log 1.0001⌋

/-! ## Oracle validation (PositionManager._getValidatedWBTCPrice)

Solidity source, lines 37-48: fetches `(answer, updatedAt)` from Chainlink,
requires `block.timestamp - updatedAt <= PRICE_STALENESS_THRESHOLD` (3600),
requires `answer > 0`, and converts the 8-decimal Chainlink value to 6
decimals.  The uint256 subtraction is checked and reverts on underflow,
modelled by an explicit branch. -/

def PRICE_STALENESS_THRESHOLD : ℕ := 3600

def getValidatedWBTCPrice (timestamp : ℕ) (answer : ℤ) (updatedAt : ℕ) :
    Except String ℕ :=
  if timestamp < updatedAt then
    Except.error "Panic: arithmetic underflow"
  else if PRICE_STALENESS_THRESHOLD < timestamp - updatedAt then
    Except.error "Chainlink price too stale"
  else if answer ≤ 0 then
    Except.error "Invalid Chainlink price"
  else
    Except.ok (answer.toNat * 1000000 / 100000000)

/-! ## Contract state model

The PositionManager contract is embedded as explicit state passing.  Addresses
are natural numbers; ERC20 balances are functions from address to ℕ.  The
external Uniswap position manager (the venue) is modelled through environment
records: `MintEnv` carries the amounts the venue actually consumes on `mint`
(constrained to the approved amounts) and the fresh token identifier comes from
the `nextId` counter; `CloseEnv` carries the amounts freed by
`decreaseLiquidity` + `collect`.  The OpenZeppelin `onlyOwner` and
`nonReentrant` modifiers are modelled explicitly in source order; an external
self-call (Solidity `this.f(...)`) is a call whose sender is the contract's own
address and which observes the reentrancy flag already set. -/

structure Chain where
  owner : ℕ
  self : ℕ
  venue : ℕ
  wbtcBal : ℕ → ℕ
  usdcBal : ℕ → ℕ
  ethBal : ℕ → ℕ
  locked : Bool
  currentTokenId : ℕ
  openPositions : List ℕ
  nextId : ℕ
  pendingFees0 : ℕ
  pendingFees1 : ℕ
  oracleAnswer : ℤ
  oracleUpdatedAt : ℕ
  timestamp : ℕ
  rangePercent : ℤ

def setBal (bal : ℕ → ℕ) (a v : ℕ) : ℕ → ℕ :=
  fun x => if x = a then v else bal x

/-- ERC20 transfer: debit `src`, credit `dst`; fails when the source balance
is insufficient. -/
def erc20Transfer (bal : ℕ → ℕ) (src dst amt : ℕ) : Option (ℕ → ℕ) :=
  if amt ≤ bal src then
    let b1 := setBal bal src (bal src - amt)
    some (setBal b1 dst (b1 dst + amt))
  else
    none

structure MintEnv where
  used0 : ℕ
  used1 : ℕ
  liq : ℕ

structure CloseEnv where
  freed0 : ℕ
  freed1 : ℕ

/-- The venue `mint` step shared by `createPosition`,
`addLiquidityFromContract` and `addLiquidityFromContractPrioritized`: the venue
pulls at most the approved desired amounts from the contract, a fresh token id
is issued and stored in `currentTokenId` (lines 122-141 and analogues). -/
def mintFromSelf (amount0Desired amount1Desired : ℕ) (env : MintEnv)
    (s : Chain) : Except String (ℕ × ℕ × ℕ × ℕ × Chain) :=
  if env.used0 ≤ amount0Desired ∧ env.used1 ≤ amount1Desired then
    match erc20Transfer s.wbtcBal s.self s.venue env.used0 with
    | none => Except.error "VenueError"
    | some wb =>
      match erc20Transfer s.usdcBal s.self s.venue env.used1 with
      | none => Except.error "VenueError"
      | some ub =>
        let tokenId := s.nextId
        Except.ok (tokenId, env.liq, env.used0, env.used1,
          { s with wbtcBal := wb, usdcBal := ub,
                   currentTokenId := tokenId,
                   openPositions := tokenId :: s.openPositions,
                   nextId := s.nextId + 1 })
  else
    Except.error "VenueError"

/-- PositionManager.createPosition (lines 102-142): `onlyOwner nonReentrant`;
transfers the desired amounts from the sender, approves and mints, stores the
new token id.  No refund of unused amounts is performed. -/
def createPosition (sender : ℕ) (amount0Desired amount1Desired : ℕ)
    (tickLower tickUpper : ℤ) (env : MintEnv) (s : Chain) :
    Except String (ℕ × ℕ × ℕ × ℕ × Chain) :=
  if sender ≠ s.owner then Except.error "OwnableUnauthorizedAccount"
  else if s.locked then Except.error "ReentrancyGuardReentrantCall"
  else
    let s1 := { s with locked := true }
    match erc20Transfer s1.wbtcBal sender s1.self amount0Desired with
    | none => Except.error "ERC20InsufficientBalance"
    | some wb =>
      match erc20Transfer s1.usdcBal sender s1.self amount1Desired with
      | none => Except.error "ERC20InsufficientBalance"
      | some ub =>
        let s2 := { s1 with wbtcBal := wb, usdcBal := ub }
        match mintFromSelf amount0Desired amount1Desired env s2 with
        | Except.error e => Except.error e
        | Except.ok (tokenId, liquidity, amount0, amount1, s3) =>
          Except.ok (tokenId, liquidity, amount0, amount1,
            { s3 with locked := false })

/-- PositionManager.emergencyWithdraw (lines 464-493): `onlyOwner
nonReentrant`; sweeps ETH, WBTC and USDC to the owner, one transfer per
non-zero balance, then requires that at least one asset was withdrawn. -/
def emergencyWithdraw (sender : ℕ) (s : Chain) :
    Except String (ℕ × ℕ × ℕ × Chain) :=
  if sender ≠ s.owner then Except.error "OwnableUnauthorizedAccount"
  else if s.locked then Except.error "ReentrancyGuardReentrantCall"
  else
    let s1 := { s with locked := true }
    let ethAmount := s1.ethBal s1.self
    let s2 :=
      if 0 < ethAmount then
        match erc20Transfer s1.ethBal s1.self s1.owner ethAmount with
        | some eb => { s1 with ethBal := eb }
        | none => s1
      else s1
    let amount0 := s2.wbtcBal s2.self
    let s3 :=
      if 0 < amount0 then
        match erc20Transfer s2.wbtcBal s2.self s2.owner amount0 with
        | some wb => { s2 with wbtcBal := wb }
        | none => s2
      else s2
    let amount1 := s3.usdcBal s3.self
    let s4 :=
      if 0 < amount1 then
        match erc20Transfer s3.usdcBal s3.self s3.owner amount1 with
        | some ub => { s3 with usdcBal := ub }
        | none => s3
      else s3
    if 0 < ethAmount ∨ 0 < amount0 ∨ 0 < amount1 then
      Except.ok (ethAmount, amount0, amount1, { s4 with locked := false })
    else
      Except.error "No assets to withdraw"

/-- PositionManager.closePosition (lines 340-376): `onlyOwner nonReentrant`;
requires an active position, decreases liquidity to zero, collects everything
to the contract, burns the NFT and clears `currentTokenId`. -/
def closePosition (sender : ℕ) (env : CloseEnv) (s : Chain) :
    Except String (ℕ × ℕ × Chain) :=
  if sender ≠ s.owner then Except.error "OwnableUnauthorizedAccount"
  else if s.locked then Except.error "ReentrancyGuardReentrantCall"
  else
    let s1 := { s with locked := true }
    if s1.currentTokenId = 0 then Except.error "No active position"
    else
      let wb := setBal s1.wbtcBal s1.self (s1.wbtcBal s1.self + env.freed0)
      let ub := setBal s1.usdcBal s1.self (s1.usdcBal s1.self + env.freed1)
      Except.ok (env.freed0, env.freed1,
        { s1 with wbtcBal := wb, usdcBal := ub,
                  openPositions := s1.openPositions.erase s1.currentTokenId,
                  currentTokenId := 0,
                  locked := false })

/-- PositionManager.rebalance (lines 381-398): `onlyOwner nonReentrant`;
requires an active position, then performs the external self-calls
`this.closePosition()` and `this.createPosition(...)` — both executed with the
contract itself as sender and with the reentrancy flag already set. -/
def rebalance (sender : ℕ) (currentTick : ℤ) (cenv : CloseEnv) (menv : MintEnv)
    (s : Chain) : Except String (ℕ × Chain) :=
  if sender ≠ s.owner then Except.error "OwnableUnauthorizedAccount"
  else if s.locked then Except.error "ReentrancyGuardReentrantCall"
  else
    let s1 := { s with locked := true }
    if s1.currentTokenId = 0 then Except.error "No active position"
    else
      match closePosition s1.self cenv s1 with
      | Except.error e => Except.error e
      | Except.ok (amount0, amount1, s2) =>
        let range := calculateTickRange s2.rangePercent currentTick
        match createPosition s2.self amount0 amount1 range.1 range.2 menv s2 with
        | Except.error e => Except.error e
        | Except.ok (newTokenId, _, _, _, s3) =>
          Except.ok (newTokenId, { s3 with locked := false })

/-- The desired-amount computation of
PositionManager.addLiquidityFromContractPrioritized (lines 228-247): USD
values are compared, then each branch requests 100% of one balance and the
full other balance guarded by a redundant positivity test. -/
def prioritizedAmounts (wbtcBalance usdcBalance wbtcPrice : ℕ) : ℕ × ℕ :=
  let wbtcValueUSD := wbtcBalance * wbtcPrice / 100000000
  let usdcValueUSD := usdcBalance
  if usdcValueUSD ≤ wbtcValueUSD then
    (wbtcBalance, if 0 < usdcBalance then usdcBalance else 0)
  else
    ((if 0 < wbtcBalance then wbtcBalance else 0), usdcBalance)

/-- PositionManager.addLiquidityFromContractPrioritized (lines 212-281):
`onlyOwner nonReentrant`; reads the contract's own balances, requires that at
least one is non-zero, computes the prioritized desired amounts, approves and
mints. -/
def addLiquidityFromContractPrioritized (sender : ℕ) (wbtcPrice : ℕ)
    (tickLower tickUpper : ℤ) (env : MintEnv) (s : Chain) :
    Except String (ℕ × ℕ × ℕ × ℕ × Chain) :=
  if sender ≠ s.owner then Except.error "OwnableUnauthorizedAccount"
  else if s.locked then Except.error "ReentrancyGuardReentrantCall"
  else
    let s1 := { s with locked := true }
    let wbtcBalance := s1.wbtcBal s1.self
    let usdcBalance := s1.usdcBal s1.self
    if wbtcBalance = 0 ∧ usdcBalance = 0 then
      Except.error "No tokens in contract"
    else
      let desired := prioritizedAmounts wbtcBalance usdcBalance wbtcPrice
      match mintFromSelf desired.1 desired.2 env s1 with
      | Except.error e => Except.error e
      | Except.ok (tokenId, liquidity, amount0, amount1, s2) =>
        Except.ok (tokenId, liquidity, amount0, amount1,
          { s2 with locked := false })

/-- PositionManager.compound (lines 517-556): `nonReentrant` only, no
ownership modifier; requires an active position, collects accrued fees to the
contract, requires them non-zero, validates the oracle price, computes the new
tick range, then performs the external self-call
`this.addLiquidityFromContractPrioritized(...)` with the contract itself as
sender and the reentrancy flag already set. -/
def compound (sender : ℕ) (currentTick : ℤ) (env : MintEnv) (s : Chain) :
    Except String (ℕ × ℕ × ℕ × ℕ × Chain) :=
  if s.locked then Except.error "ReentrancyGuardReentrantCall"
  else
    let s1 := { s with locked := true }
    if s1.currentTokenId = 0 then Except.error "No active position"
    else
      let feesCollected0 := s1.pendingFees0
      let feesCollected1 := s1.pendingFees1
      let wb := setBal s1.wbtcBal s1.self (s1.wbtcBal s1.self + feesCollected0)
      let ub := setBal s1.usdcBal s1.self (s1.usdcBal s1.self + feesCollected1)
      let s2 := { s1 with wbtcBal := wb, usdcBal := ub,
                          pendingFees0 := 0, pendingFees1 := 0 }
      if feesCollected0 = 0 ∧ feesCollected1 = 0 then
        Except.error "No fees to compound"
      else
        match getValidatedWBTCPrice s2.timestamp s2.oracleAnswer
            s2.oracleUpdatedAt with
        | Except.error e => Except.error e
        | Except.ok wbtcPrice =>
          let range := calculateTickRange s2.rangePercent currentTick
          match addLiquidityFromContractPrioritized s2.self wbtcPrice
              range.1 range.2 env s2 with
          | Except.error e => Except.error e
          | Except.ok (tokenId, liquidity, amount0, amount1, s3) =>
            Except.ok (tokenId, liquidity, amount0, amount1,
              { s3 with locked := false })

/-! ## Concrete states and result views used by closed theorems -/

/-- A concrete chain state: owner 1, contract 2, venue 3, an active position
with id 7, accrued fees of 5 WBTC-sats, a fresh positive oracle answer, and
zero token balances everywhere. -/
def sampleChain : Chain where
  owner := 1
  self := 2
  venue := 3
  wbtcBal := fun _ => 0
  usdcBal := fun _ => 0
  ethBal := fun _ => 0
  locked := false
  currentTokenId := 7
  openPositions := [7]
  nextId := 8
  pendingFees0 := 5
  pendingFees1 := 0
  oracleAnswer := 9000000000000
  oracleUpdatedAt := 1000
  timestamp := 1500
  rangePercent := 15

/-- `sampleChain` with the owner funded: 900 WBTC-sats and 500 USDC units in
the owner's external balance, none in the contract. -/
def fundedChain : Chain :=
  { sampleChain with
      wbtcBal := fun a => if a = 1 then 900 else 0,
      usdcBal := fun a => if a = 1 then 500 else 0 }

/-- `fundedChain` started from the Empty state: no active position held. -/
def startChain : Chain :=
  { fundedChain with currentTokenId := 0, openPositions := [] }

/-- Two consecutive owner calls to `createPosition` starting from the Empty
state `startChain` — the second call happens while the first position is still
open. -/
def twoCreates : Except String (ℕ × ℕ × ℕ × ℕ × Chain) :=
  match createPosition 1 100 50 (-1380) 1380 ⟨40, 50, 77⟩ startChain with
  | Except.ok (_, _, _, _, s1) =>
    createPosition 1 50 50 (-1380) 1380 ⟨10, 10, 33⟩ s1
  | Except.error e => Except.error e

/-- A single owner call to `createPosition` on the Active state `fundedChain`
(position 7 still open), with desired amounts 100/50 of which the venue
consumes only 40/50. -/
def createRun : Except String (ℕ × ℕ × ℕ × ℕ × Chain) :=
  createPosition 1 100 50 (-1380) 1380 ⟨40, 50, 77⟩ fundedChain

/-- View of a lifecycle result: the amount of token0 actually used by the
venue, the caller's WBTC balance, and the contract's WBTC balance. -/
def usedAndBalances (caller : ℕ)
    (r : Except String (ℕ × ℕ × ℕ × ℕ × Chain)) : Option (ℕ × ℕ × ℕ) :=
  match r with
  | Except.ok (_, _, used0, _, s) =>
    some (used0, s.wbtcBal caller, s.wbtcBal s.self)
  | Except.error _ => none

/-- View of a lifecycle result: the manager's tracked token id and the list of
venue positions still open. -/
def openCount (r : Except String (ℕ × ℕ × ℕ × ℕ × Chain)) :
    Option (ℕ × List ℕ) :=
  match r with
  | Except.ok (_, _, _, _, s) => some (s.currentTokenId, s.openPositions)
  | Except.error _ => none

/-! ## Helper lemmas -/

/-- For `0 < r < 100` the square-root denominator of the corrected
concentration formula is strictly positive. -/
theorem sqrt_denom_pos {r : ℝ} (h0 : 0 < r) (h1 : r < 100) :
    0 < Real.sqrt (1 + r / 100) - Real.sqrt (1 - r / 100) := by
  have hx0 : (0:ℝ) ≤ 1 - r / 100 := by nlinarith
  have h := Real.sqrt_lt_sqrt hx0 (by nlinarith : 1 - r / 100 < 1 + r / 100)
  linarith

/-- The denominator `sqrt(1+x) - sqrt(1-x)` is strictly below `2x` for
`x = r/100` in `(0,1)`, because the conjugate sum exceeds 1. -/
theorem sqrt_denom_lt {r : ℝ} (h0 : 0 < r) (h1 : r < 100) :
    Real.sqrt (1 + r / 100) - Real.sqrt (1 - r / 100) < 2 * (r / 100) := by
  set x : ℝ := r / 100 with hxdef
  have hx0 : 0 < x := by positivity
  have hx1 : x < 1 := by rw [hxdef]; linarith [(by linarith : r < 100)]
  have hA : Real.sqrt (1 + x) * Real.sqrt (1 + x) = 1 + x :=
    Real.mul_self_sqrt (by linarith)
  have hB : Real.sqrt (1 - x) * Real.sqrt (1 - x) = 1 - x :=
    Real.mul_self_sqrt (by linarith)
  have hA1 : 1 < Real.sqrt (1 + x) := by
    have := (Real.lt_sqrt (by norm_num : (0:ℝ) ≤ 1)).mpr
      (by nlinarith : (1:ℝ) ^ 2 < 1 + x)
    exact this
  have hBnn : 0 ≤ Real.sqrt (1 - x) := Real.sqrt_nonneg _
  have hdiff : 0 < Real.sqrt (1 + x) - Real.sqrt (1 - x) := sqrt_denom_pos h0 h1
  have hsum : 1 < Real.sqrt (1 + x) + Real.sqrt (1 - x) := by linarith
  have hprod : (Real.sqrt (1 + x) - Real.sqrt (1 - x)) *
      (Real.sqrt (1 + x) + Real.sqrt (1 - x)) = 2 * x := by
    have expand : (Real.sqrt (1 + x) - Real.sqrt (1 - x)) *
        (Real.sqrt (1 + x) + Real.sqrt (1 - x)) =
        Real.sqrt (1 + x) * Real.sqrt (1 + x) -
        Real.sqrt (1 - x) * Real.sqrt (1 - x) := by ring
    rw [expand, hA, hB]; ring
  nlinarith [mul_lt_mul_of_pos_left hsum hdiff]

/-- Truncating division times the (positive) divisor never overshoots a
nonnegative dividend. -/
theorem soldiv_mul_le_self {a b : ℤ} (ha : 0 ≤ a) (hb : 0 < b) :
    soldiv a b * b ≤ a := by
  unfold soldiv
  rw [if_pos ha]
  have h := Int.ediv_add_emod a b
  have h2 := Int.emod_nonneg a (ne_of_gt hb)
  nlinarith

/-- Truncating division times the (positive) divisor stays within `b - 1`
below a nonnegative dividend. -/
theorem soldiv_mul_gt {a b : ℤ} (ha : 0 ≤ a) (hb : 0 < b) :
    a - b < soldiv a b * b := by
  unfold soldiv
  rw [if_pos ha]
  have h := Int.ediv_add_emod a b
  have h2 := Int.emod_lt_of_pos a hb
  nlinarith

/-- Truncating division times the (positive) divisor never undershoots a
nonpositive dividend. -/
theorem soldiv_mul_ge_self {a b : ℤ} (ha : a ≤ 0) (hb : 0 < b) :
    a ≤ soldiv a b * b := by
  unfold soldiv
  by_cases h0 : 0 ≤ a
  · have : a = 0 := le_antisymm ha h0
    subst this
    simp
  · rw [if_neg h0]
    have hna : 0 ≤ -a := by linarith
    have h := Int.ediv_add_emod (-a) b
    have h2 := Int.emod_nonneg (-a) (ne_of_gt hb)
    nlinarith

/-- Truncating division times the (positive) divisor stays within `b - 1`
above a nonpositive dividend. -/
theorem soldiv_mul_lt {a b : ℤ} (ha : a ≤ 0) (hb : 0 < b) :
    soldiv a b * b < a + b := by
  unfold soldiv
  by_cases h0 : 0 ≤ a
  · have : a = 0 := le_antisymm ha h0
    subst this
    simp [hb]
  · rw [if_neg h0]
    have h := Int.ediv_add_emod (-a) b
    have h2 := Int.emod_lt_of_pos (-a) hb
    nlinarith

/-- The scaled tick delta is at least 93 for any valid range percent. -/
theorem tickRangeOf_ge {r : ℤ} (h1 : 1 ≤ r) : 93 ≤ tickRangeOf r := by
  unfold tickRangeOf soldiv
  have hnn : 0 ≤ r * 1398 := by nlinarith
  rw [if_pos hnn]
  have h15 : (0:ℤ) < 15 := by norm_num
  have hmono : (1398 : ℤ) / 15 ≤ r * 1398 / 15 := by
    apply Int.ediv_le_ediv h15
    nlinarith
  norm_num at hmono
  exact hmono

/-- Successful validation characterised: a fresh timestamp and a positive
answer produce the 6-decimal converted price. -/
theorem getValidatedWBTCPrice_ok {t u : ℕ} {a : ℤ} (h1 : u ≤ t)
    (h2 : t - u ≤ PRICE_STALENESS_THRESHOLD) (h3 : 0 < a) :
    getValidatedWBTCPrice t a u = Except.ok (a.toNat * 1000000 / 100000000) := by
  unfold getValidatedWBTCPrice
  rw [if_neg (by omega), if_neg (by omega), if_neg (by omega)]

/-- Both branches of the prioritization logic request the full pair of held
balances: the redundant ternaries collapse. -/
theorem prioritizedAmounts_eq (b0 b1 p : ℕ) :
    prioritizedAmounts b0 b1 p = (b0, b1) := by
  unfold prioritizedAmounts
  by_cases h : b1 ≤ b0 * p / 100000000
  · rw [if_pos h]
    by_cases h1 : 0 < b1
    · rw [if_pos h1]
    · rw [if_neg h1]
      have : b1 = 0 := by omega
      rw [this]
  · rw [if_neg h]
    by_cases h0 : 0 < b0
    · rw [if_pos h0]
    · rw [if_neg h0]
      have : b0 = 0 := by omega
      rw [this]

/-- The `onlyOwner` modifier of `addLiquidityFromContractPrioritized` rejects
any sender other than the owner before anything else runs. -/
theorem addLiq_not_owner (sender p : ℕ) (tl tu : ℤ) (env : MintEnv) (s : Chain)
    (h : sender ≠ s.owner) :
    addLiquidityFromContractPrioritized sender p tl tu env s =
      Except.error "OwnableUnauthorizedAccount" := by
  unfold addLiquidityFromContractPrioritized
  rw [if_pos h]

/-- The `onlyOwner` modifier of `closePosition` rejects any sender other than
the owner before anything else runs. -/
theorem closePosition_not_owner (sender : ℕ) (env : CloseEnv) (s : Chain)
    (h : sender ≠ s.owner) :
    closePosition sender env s = Except.error "OwnableUnauthorizedAccount" := by
  unfold closePosition
  rw [if_pos h]

/-- A successful ERC20 transfer debits the source by the amount, credits the
destination, and leaves every other account unchanged. -/
theorem erc20Transfer_spec {bal : ℕ → ℕ} {src dst amt : ℕ} {b : ℕ → ℕ}
    (h : erc20Transfer bal src dst amt = some b) (hne : src ≠ dst) :
    amt ≤ bal src ∧ b src = bal src - amt ∧ b dst = bal dst + amt ∧
    ∀ a, a ≠ src → a ≠ dst → b a = bal a := by
  unfold erc20Transfer at h
  by_cases hle : amt ≤ bal src
  · rw [if_pos hle] at h
    simp only [Option.some.injEq] at h
    subst h
    refine ⟨hle, ?_, ?_, fun a ha1 ha2 => ?_⟩
    · simp [setBal, hne]
    · simp [setBal, Ne.symm hne]
    · simp [setBal, ha1, ha2]
  · rw [if_neg hle] at h
    cases h

/-- Elimination principle for a successful `createPosition` call: it ran as
the unlocked owner, the venue consumed at most the desired amounts, the actual
amounts returned are the venue's, the fresh id is recorded on top of the
previous open-position list, and the two token-balance maps went through the
caller-to-contract and contract-to-venue transfers with no refund step. -/
theorem createPosition_ok_spec {sender d0 d1 : ℕ} {tl tu : ℤ} {env : MintEnv}
    {s : Chain} {tid liq u0 u1 : ℕ} {s2 : Chain}
    (h : createPosition sender d0 d1 tl tu env s =
      Except.ok (tid, liq, u0, u1, s2)) :
    sender = s.owner ∧ s.locked = false ∧ u0 = env.used0 ∧ u1 = env.used1 ∧
    liq = env.liq ∧ env.used0 ≤ d0 ∧ env.used1 ≤ d1 ∧
    tid = s.nextId ∧ s2.currentTokenId = s.nextId ∧
    s2.openPositions = s.nextId :: s.openPositions ∧ s2.nextId = s.nextId + 1 ∧
    s2.self = s.self ∧ s2.owner = s.owner ∧ s2.venue = s.venue ∧
    (∃ wb, erc20Transfer s.wbtcBal sender s.self d0 = some wb ∧
      erc20Transfer wb s.self s.venue env.used0 = some s2.wbtcBal) ∧
    (∃ ub, erc20Transfer s.usdcBal sender s.self d1 = some ub ∧
      erc20Transfer ub s.self s.venue env.used1 = some s2.usdcBal) := by
  unfold createPosition at h
  by_cases h1 : sender ≠ s.owner
  · rw [if_pos h1] at h
    cases h
  · rw [if_neg h1] at h
    push_neg at h1
    by_cases h2 : s.locked = true
    · rw [if_pos h2] at h
      cases h
    · rw [if_neg h2] at h
      simp only at h
      rcases hwo : erc20Transfer s.wbtcBal sender s.self d0 with _ | wb
      · rw [hwo] at h; cases h
      · rw [hwo] at h
        rcases huo : erc20Transfer s.usdcBal sender s.self d1 with _ | ub
        · rw [huo] at h; cases h
        · rw [huo] at h
          simp only at h
          unfold mintFromSelf at h
          by_cases h3 : env.used0 ≤ d0 ∧ env.used1 ≤ d1
          · rw [if_pos h3] at h
            simp only at h
            rcases hwv : erc20Transfer wb s.self s.venue env.used0 with _ | wb2
            · rw [hwv] at h; cases h
            · rw [hwv] at h
              rcases huv : erc20Transfer ub s.self s.venue env.used1 with _ | ub2
              · rw [huv] at h; cases h
              · rw [huv] at h
                simp only [Except.ok.injEq, Prod.mk.injEq] at h
                obtain ⟨h4, h5, h6, h7, h8⟩ := h
                subst h4 h5 h6 h7 h8
                refine ⟨h1.symm ▸ rfl, by simpa using h2, rfl, rfl, rfl,
                  h3.1, h3.2, rfl, rfl, rfl, rfl, rfl, rfl, rfl,
                  ⟨wb, rfl, by simpa using hwv⟩, ⟨ub, rfl, by simpa using huv⟩⟩
          · rw [if_neg h3] at h
            cases h

/-! ## Claim theorems -/

/-- C1: for every rangePercent strictly between 0 and 100, the concentration
factor computed by `calculateMetrics` (fetchPoolDataDirect.js) equals
`1/(sqrt(1+r/100) - sqrt(1-r/100))` and is strictly greater than the naive
`100/(2*r)` computed by `displayPoolInfo` (calculateCapital.js line 453); at
rangePercent 15 the naive value is exactly 10/3 ≈ 3.33 while the corrected
factor lies strictly between 6.64 and 6.66 — so the naive formula still
present in calculateCapital.js violates the claim, exactly the repository's
documented factor-of-2 bug. -/
theorem C1_concentration_factor_corrected_vs_naive :
    (∀ r : ℝ, 0 < r → r < 100 →
      concentrationFactor r =
        1 / (Real.sqrt (1 + r / 100) - Real.sqrt (1 - r / 100)) ∧
      naiveConcentrationFactor r < concentrationFactor r) ∧
    naiveConcentrationFactor 15 = 10 / 3 ∧
    (6.64 : ℝ) < concentrationFactor 15 ∧ concentrationFactor 15 < 6.66 := by
  have formula : ∀ r : ℝ, concentrationFactor r =
      1 / (Real.sqrt (1 + r / 100) - Real.sqrt (1 - r / 100)) := by
    intro r
    simp [concentrationFactor, one_mul]
  have gap : ∀ r : ℝ, 0 < r → r < 100 →
      naiveConcentrationFactor r < concentrationFactor r := by
    intro r h0 h1
    have hD : 0 < Real.sqrt (1 + r / 100) - Real.sqrt (1 - r / 100) :=
      sqrt_denom_pos h0 h1
    have hlt : Real.sqrt (1 + r / 100) - Real.sqrt (1 - r / 100) <
        2 * (r / 100) := sqrt_denom_lt h0 h1
    have hnaive : naiveConcentrationFactor r = 1 / (2 * (r / 100)) := by
      unfold naiveConcentrationFactor
      rw [eq_div_iff (by positivity)]
      field_simp
    rw [formula, hnaive]
    exact one_div_lt_one_div_of_lt hD hlt
  refine ⟨fun r h0 h1 => ⟨formula r, gap r h0 h1⟩, ?_, ?_, ?_⟩
  · unfold naiveConcentrationFactor
    norm_num
  · have s2 : (1.0723:ℝ) < Real.sqrt 1.15 :=
      (Real.lt_sqrt (by norm_num)).mpr (by norm_num)
    have s3 : Real.sqrt 0.85 < 0.922 :=
      (Real.sqrt_lt' (by norm_num)).mpr (by norm_num)
    have e : concentrationFactor 15 = 1 / (Real.sqrt 1.15 - Real.sqrt 0.85) := by
      rw [show (1.15:ℝ) = 1 + 15/100 by norm_num,
          show (0.85:ℝ) = 1 - 15/100 by norm_num]
      exact formula 15
    rw [e]
    have hD : 0 < Real.sqrt 1.15 - Real.sqrt 0.85 := by nlinarith
    rw [lt_div_iff₀ hD]
    have s1 : Real.sqrt 1.15 < 1.0724 :=
      (Real.sqrt_lt' (by norm_num)).mpr (by norm_num)
    have s4 : (0.9219:ℝ) < Real.sqrt 0.85 :=
      (Real.lt_sqrt (by norm_num)).mpr (by norm_num)
    nlinarith
  · have s1 : Real.sqrt 1.15 < 1.0724 :=
      (Real.sqrt_lt' (by norm_num)).mpr (by norm_num)
    have s2 : (1.0723:ℝ) < Real.sqrt 1.15 :=
      (Real.lt_sqrt (by norm_num)).mpr (by norm_num)
    have s3 : Real.sqrt 0.85 < 0.922 :=
      (Real.sqrt_lt' (by norm_num)).mpr (by norm_num)
    have s4 : (0.9219:ℝ) < Real.sqrt 0.85 :=
      (Real.lt_sqrt (by norm_num)).mpr (by norm_num)
    have e : concentrationFactor 15 = 1 / (Real.sqrt 1.15 - Real.sqrt 0.85) := by
      rw [show (1.15:ℝ) = 1 + 15/100 by norm_num,
          show (0.85:ℝ) = 1 - 15/100 by norm_num]
      simp [concentrationFactor, one_mul]
    rw [e]
    have hD : 0 < Real.sqrt 1.15 - Real.sqrt 0.85 := by nlinarith
    rw [div_lt_iff₀ hD]
    nlinarith

/-- C1 witness: the corrected/naive gap instantiated at rangePercent 15. -/
theorem C1_concentration_witness :
    naiveConcentrationFactor 15 < concentrationFactor 15 :=
  (C1_concentration_factor_corrected_vs_naive.1 15
    (by norm_num) (by norm_num)).2

/-- C2 counterexample: with zero ETH, WBTC and USDC custody the owner's
`emergencyWithdraw` call reverts with "No assets to withdraw" instead of
succeeding with all-zero amounts, refuting the claimed no-op success. -/
theorem C2_zero_balances_cex :
    emergencyWithdraw sampleChain.owner sampleChain =
      Except.error "No assets to withdraw" := rfl

/-- C2 amended: whenever the manager custodies zero native currency and zero
balances of both position tokens, `emergencyWithdraw` called by the owner
fails with the "No assets to withdraw" error (the behaviour its own test
`testEmergencyWithdrawRevertsIfNoAssets` documents), rather than succeeding
as a no-op. -/
theorem C2_emergencyWithdraw_zero_reverts (s : Chain)
    (h1 : s.ethBal s.self = 0) (h2 : s.wbtcBal s.self = 0)
    (h3 : s.usdcBal s.self = 0) (h4 : s.locked = false) :
    emergencyWithdraw s.owner s = Except.error "No assets to withdraw" := by
  unfold emergencyWithdraw
  rw [if_neg (by simp), if_neg (by simp [h4])]
  simp [h1, h2, h3]

/-- C2 witness: the amended statement instantiated at the Empty funded
state, whose contract custody is zero everywhere. -/
theorem C2_emergencyWithdraw_zero_witness :
    emergencyWithdraw startChain.owner startChain =
      Except.error "No assets to withdraw" :=
  C2_emergencyWithdraw_zero_reverts startChain rfl rfl rfl rfl

/-- C3: for every caller (owner or not), with an Active position, non-zero
collected fees and a fresh positive oracle answer, `compound` does not succeed:
it always reverts in the external self-call
`this.addLiquidityFromContractPrioritized(...)`, whose `onlyOwner` check sees
the contract itself as sender — refuting the claim that the fees are re-added
as liquidity. -/
theorem C3_compound_always_reverts (caller : ℕ) (tick : ℤ) (env : MintEnv)
    (s : Chain) (hl : s.locked = false) (ho : s.owner ≠ s.self)
    (hid : s.currentTokenId ≠ 0)
    (hfees : s.pendingFees0 ≠ 0 ∨ s.pendingFees1 ≠ 0)
    (ht : s.oracleUpdatedAt ≤ s.timestamp)
    (hfresh : s.timestamp - s.oracleUpdatedAt ≤ PRICE_STALENESS_THRESHOLD)
    (hans : 0 < s.oracleAnswer) :
    compound caller tick env s = Except.error "OwnableUnauthorizedAccount" := by
  unfold compound
  rw [if_neg (by simp [hl])]
  simp only
  rw [if_neg hid]
  rw [if_neg (by tauto)]
  rw [getValidatedWBTCPrice_ok ht hfresh hans]
  simp only
  rw [addLiq_not_owner _ _ _ _ _ _ (by simpa using fun hh => ho hh.symm)]

/-- C3 witness: an arbitrary non-owner caller 999 on the Active sample state
with 5 units of accrued WBTC fees. -/
theorem C3_compound_witness :
    compound 999 0 ⟨0, 0, 0⟩ sampleChain =
      Except.error "OwnableUnauthorizedAccount" :=
  C3_compound_always_reverts 999 0 ⟨0, 0, 0⟩ sampleChain rfl (by decide)
    (by decide) (Or.inl (by decide)) (by decide) (by decide) (by decide)

/-- C4: with an Active position, the owner's `rebalance` call never performs
the close-then-recreate sequence: the external self-call
`this.closePosition()` runs with the contract itself as sender, fails its
`onlyOwner` check, and the whole operation reverts — refuting the claim that
rebalance closes the position and recreates it with the freed amounts. -/
theorem C4_rebalance_always_reverts (tick : ℤ) (cenv : CloseEnv)
    (menv : MintEnv) (s : Chain) (hl : s.locked = false)
    (ho : s.owner ≠ s.self) (hid : s.currentTokenId ≠ 0) :
    rebalance s.owner tick cenv menv s =
      Except.error "OwnableUnauthorizedAccount" := by
  unfold rebalance
  rw [if_neg (by simp), if_neg (by simp [hl])]
  simp only
  rw [if_neg hid]
  rw [closePosition_not_owner _ _ _ (by simpa using fun hh => ho hh.symm)]

/-- C4 witness: the owner calling rebalance on the Active sample state. -/
theorem C4_rebalance_witness :
    rebalance sampleChain.owner 0 ⟨10, 20⟩ ⟨0, 0, 0⟩ sampleChain =
      Except.error "OwnableUnauthorizedAccount" :=
  C4_rebalance_always_reverts 0 ⟨10, 20⟩ ⟨0, 0, 0⟩ sampleChain rfl
    (by decide) (by decide)

/-- C5 counterexample: at rangePercent 30 the code's tick delta is the linear
scaling `30*1398/15 = 2796`, while the delta derived from the logarithmic
price-to-tick relationship is below 2700 — so the computation does not derive
the delta from the price-to-tick relationship. -/
theorem C5_linear_delta_cex :
    tickRangeOf 30 = 2796 ∧ specTickDelta 30 < 2700 ∧
    specTickDelta 30 ≠ tickRangeOf 30 := by
  have h1 : tickRangeOf 30 = 2796 := by norm_num [tickRangeOf, soldiv]
  have h540 : (1.054:ℝ) ≤ 1.0001 ^ (540:ℕ) := by
    have hb := one_add_mul_le_pow (by norm_num : (-2:ℝ) ≤ 0.0001) 540
    calc (1.054:ℝ) = 1 + (540:ℕ) * 0.0001 := by norm_num
      _ ≤ (1 + 0.0001) ^ (540:ℕ) := hb
      _ = 1.0001 ^ (540:ℕ) := by norm_num
  have hpow : (1.3:ℝ) < 1.0001 ^ (2700:ℕ) := by
    calc (1.3:ℝ) < 1.054 ^ (5:ℕ) := by norm_num
      _ ≤ (1.0001 ^ (540:ℕ)) ^ (5:ℕ) := pow_le_pow_left₀ (by norm_num) h540 5
      _ = 1.0001 ^ (2700:ℕ) := by rw [← pow_mul]
  have h2 : specTickDelta 30 < 2700 := by
    unfold specTickDelta
    rw [Int.floor_lt]
    have hlog : 0 < Real.log 1.0001 := Real.log_pos (by norm_num)
    rw [div_lt_iff₀ hlog]
    have h13 : (1:ℝ) + 30 / 100 = 1.3 := by norm_num
    rw [h13]
    have hl13 := Real.log_lt_log (by norm_num : (0:ℝ) < 1.3) hpow
    rw [Real.log_pow] at hl13
    push_cast at hl13 ⊢
    linarith
  exact ⟨h1, h2, by omega⟩

/-- C5 amended: for every current tick and every valid rangePercent, the
range-to-ticks computation derives the tick delta by linearly scaling the
precomputed ±15% anchor of 1398 ticks (`tickRange = rangePercent*1398/15`
with truncating division — so exactly `k*1398` at `rangePercent = 15k`) —
not from the logarithmic price-to-tick relationship — and then rounds both
bounds to exact multiples of the tick spacing 60 by truncating division. -/
theorem C5_linear_anchor_scaling (t k : ℤ) (h1 : 1 ≤ k) (h2 : k ≤ 6) :
    tickRangeOf (15 * k) = 1398 * k ∧
    calculateTickRange (15 * k) t =
      (soldiv (t - 1398 * k) 60 * 60, soldiv (t + 1398 * k) 60 * 60) ∧
    (60:ℤ) ∣ (calculateTickRange (15 * k) t).1 ∧
    (60:ℤ) ∣ (calculateTickRange (15 * k) t).2 := by
  have hd : tickRangeOf (15 * k) = 1398 * k := by
    unfold tickRangeOf soldiv
    have hnn : 0 ≤ 15 * k * 1398 := by nlinarith
    rw [if_pos hnn]
    have he : 15 * k * 1398 = 15 * (1398 * k) := by ring
    rw [he, Int.mul_ediv_cancel_left _ (by norm_num : (15:ℤ) ≠ 0)]
  refine ⟨hd, ?_, ?_, ?_⟩
  · simp only [calculateTickRange]
    rw [hd]
  · simp only [calculateTickRange]
    exact dvd_mul_left 60 _
  · simp only [calculateTickRange]
    exact dvd_mul_left 60 _

/-- C5 witness: the amended statement instantiated at tick 100 with
rangePercent 30 (k = 2). -/
theorem C5_linear_anchor_witness :
    tickRangeOf (15 * 2) = 1398 * 2 ∧
    calculateTickRange (15 * 2) 100 =
      (soldiv (100 - 1398 * 2) 60 * 60, soldiv (100 + 1398 * 2) 60 * 60) ∧
    (60:ℤ) ∣ (calculateTickRange (15 * 2) 100).1 ∧
    (60:ℤ) ∣ (calculateTickRange (15 * 2) 100).2 :=
  C5_linear_anchor_scaling 100 2 (by norm_num) (by norm_num)

/-- C6 counterexample: a successful `createPosition` with desired amounts
100/50 of which the venue uses only 40/50 leaves the caller debited by the
full 100 (balance 900 → 800, not the 860 a refund would give) and leaves the
60 unused units in the manager's custody — the refund path does not exist. -/
theorem C6_no_refund_cex :
    usedAndBalances 1 (createPosition 1 100 50 (-1380) 1380 ⟨40, 50, 77⟩
      fundedChain) = some (40, 800, 60) ∧ (800 : ℕ) ≠ 900 - 40 :=
  ⟨rfl, by decide⟩

/-- C6 amended: after every successful `createPosition`, the caller has been
debited exactly the full desired amounts (never just the used amounts) and
the unused portions `desired - used` remain in the manager's custody; no
refund is performed on any successful call. -/
theorem C6_no_refund (sender d0 d1 : ℕ) (tl tu : ℤ) (env : MintEnv)
    (s : Chain) (tid liq u0 u1 : ℕ) (s2 : Chain)
    (h : createPosition sender d0 d1 tl tu env s =
      Except.ok (tid, liq, u0, u1, s2))
    (h1 : sender ≠ s.self) (h2 : s.self ≠ s.venue) (h3 : sender ≠ s.venue) :
    u0 = env.used0 ∧ u1 = env.used1 ∧
    s2.self = s.self ∧
    s2.wbtcBal sender = s.wbtcBal sender - d0 ∧
    s2.usdcBal sender = s.usdcBal sender - d1 ∧
    s2.wbtcBal s.self = s.wbtcBal s.self + d0 - u0 ∧
    s2.usdcBal s.self = s.usdcBal s.self + d1 - u1 := by
  obtain ⟨_, _, hu0, hu1, _, _, _, _, _, _, _, hself, _, _,
    ⟨wb, hwo, hwv⟩, ⟨ub, huo, huv⟩⟩ := createPosition_ok_spec h
  obtain ⟨hle0, hw1, hw2, hw3⟩ := erc20Transfer_spec hwo h1
  obtain ⟨hle0v, hv1, hv2, hv3⟩ := erc20Transfer_spec hwv h2
  obtain ⟨hle1, hu1a, hu2a, hu3a⟩ := erc20Transfer_spec huo h1
  obtain ⟨hle1v, hv1u, hv2u, hv3u⟩ := erc20Transfer_spec huv h2
  refine ⟨hu0, hu1, hself, ?_, ?_, ?_, ?_⟩
  · rw [hv3 sender h1 h3, hw1]
  · rw [hv3u sender h1 h3, hu1a]
  · rw [hv1, hw2, hu0]
  · rw [hv1u, hu2a, hu1]

/-- C6 witness: the amended statement instantiated on the funded state. -/
theorem C6_no_refund_witness :
    usedAndBalances 1 createRun = some (40, 800, 60) := by
  obtain ⟨r, hr⟩ : ∃ r, createRun = Except.ok r := ⟨_, rfl⟩
  obtain ⟨tid, liq, u0, u1, st⟩ := r
  obtain ⟨hu0, hu1, hself, hw1, hu1b, hw2, hu2b⟩ :=
    C6_no_refund 1 100 50 (-1380) 1380 ⟨40, 50, 77⟩ fundedChain
      tid liq u0 u1 st hr (by decide) (by decide) (by decide)
  unfold usedAndBalances
  rw [hr]
  simp only
  rw [hself, hw1, hw2, hu0]
  norm_num [fundedChain, sampleChain]

/-- C7: `_getValidatedWBTCPrice` fails with the staleness error whenever now
minus the observation time exceeds the 3600s threshold, regardless of the
answer's value; fails with the invalid-value error whenever the answer is not
positive; returns the converted price exactly when both checks pass; and any
returned price implies both checks passed. -/
theorem C7_oracle_validation (t u : ℕ) (a : ℤ) (hle : u ≤ t) :
    (PRICE_STALENESS_THRESHOLD < t - u →
      getValidatedWBTCPrice t a u = Except.error "Chainlink price too stale") ∧
    (t - u ≤ PRICE_STALENESS_THRESHOLD → a ≤ 0 →
      getValidatedWBTCPrice t a u = Except.error "Invalid Chainlink price") ∧
    (t - u ≤ PRICE_STALENESS_THRESHOLD → 0 < a →
      getValidatedWBTCPrice t a u =
        Except.ok (a.toNat * 1000000 / 100000000)) ∧
    (∀ p, getValidatedWBTCPrice t a u = Except.ok p →
      t - u ≤ PRICE_STALENESS_THRESHOLD ∧ 0 < a) := by
  refine ⟨?_, ?_, ?_, ?_⟩
  · intro h
    unfold getValidatedWBTCPrice
    rw [if_neg (by omega), if_pos h]
  · intro h1 h2
    unfold getValidatedWBTCPrice
    rw [if_neg (by omega), if_neg (by omega), if_pos h2]
  · intro h1 h2
    exact getValidatedWBTCPrice_ok hle h1 h2
  · intro p hp
    unfold getValidatedWBTCPrice at hp
    by_cases h1 : t < u
    · rw [if_pos h1] at hp; cases hp
    · rw [if_neg h1] at hp
      by_cases h2 : PRICE_STALENESS_THRESHOLD < t - u
      · rw [if_pos h2] at hp; cases hp
      · rw [if_neg h2] at hp
        by_cases h3 : a ≤ 0
        · rw [if_pos h3] at hp; cases hp
        · exact ⟨by omega, by omega⟩

/-- C7 witness: a 9000-second-old quote with a large positive value is
rejected as stale. -/
theorem C7_oracle_witness :
    getValidatedWBTCPrice 10000 9000000000000 1000 =
      Except.error "Chainlink price too stale" :=
  (C7_oracle_validation 10000 1000 9000000000000 (by norm_num)).1
    (by norm_num [PRICE_STALENESS_THRESHOLD])

/-- C8 counterexample: starting from the Empty state, two consecutive
successful owner calls to `createPosition` leave two venue positions open
(ids 8 and 9) with the manager tracking only the newer one — the at-most-one
invariant is violated by a concrete operation sequence. -/
theorem C8_two_open_positions_cex : openCount twoCreates = some (9, [9, 8]) :=
  rfl

/-- C8 amended: `createPosition` performs no check that no position is
already open; called while a position is Active it succeeds, pushes a fresh
venue position on top of the open list and overwrites `currentTokenId`,
leaving the previous position open but untracked. -/
theorem C8_invariant_not_enforced (sender d0 d1 : ℕ) (tl tu : ℤ)
    (env : MintEnv) (s : Chain) (tid liq u0 u1 : ℕ) (s2 : Chain)
    (h : createPosition sender d0 d1 tl tu env s =
      Except.ok (tid, liq, u0, u1, s2))
    (hact : s.currentTokenId ≠ 0)
    (hmem : s.currentTokenId ∈ s.openPositions)
    (hfresh : ∀ i ∈ s.openPositions, i < s.nextId) :
    s2.openPositions = s.nextId :: s.openPositions ∧
    s2.currentTokenId = s.nextId ∧
    s.currentTokenId ∈ s2.openPositions ∧
    s2.currentTokenId ∉ s.openPositions ∧
    s2.currentTokenId ≠ s.currentTokenId := by
  obtain ⟨_, _, _, _, _, _, _, _, hcur, hopen, _, _, _, _, _, _⟩ :=
    createPosition_ok_spec h
  refine ⟨hopen, hcur, ?_, ?_, ?_⟩
  · rw [hopen]
    exact List.mem_cons_of_mem _ hmem
  · rw [hcur]
    intro hin
    exact absurd (hfresh _ hin) (lt_irrefl _)
  · rw [hcur]
    intro heq
    exact absurd (hfresh _ (heq ▸ hmem)) (lt_irrefl _)

/-- C8 witness: the amended statement instantiated on the Active funded
state: position 7 stays open while the manager records the new id 8. -/
theorem C8_invariant_witness : openCount createRun = some (8, [8, 7]) := by
  obtain ⟨r, hr⟩ : ∃ r, createRun = Except.ok r := ⟨_, rfl⟩
  obtain ⟨tid, liq, u0, u1, st⟩ := r
  obtain ⟨hopen, hcur, _, _, _⟩ :=
    C8_invariant_not_enforced 1 100 50 (-1380) 1380 ⟨40, 50, 77⟩ fundedChain
      tid liq u0 u1 st hr (by decide) (by decide) (by decide)
  unfold openCount
  rw [hr]
  simp only
  rw [hopen, hcur]
  rfl

/-- C9: for every current tick and every valid rangePercent (1 to 100), the
tick range computation returns a lower bound strictly below the current tick
and an upper bound strictly above it, both exact multiples of the tick
spacing 60. -/
theorem C9_tick_range_straddles_current (t r : ℤ) (hr1 : 1 ≤ r)
    (hr2 : r ≤ 100) :
    (calculateTickRange r t).1 < t ∧ t < (calculateTickRange r t).2 ∧
    (60:ℤ) ∣ (calculateTickRange r t).1 ∧
    (60:ℤ) ∣ (calculateTickRange r t).2 := by
  have hd : 93 ≤ tickRangeOf r := tickRangeOf_ge hr1
  have hb : (0:ℤ) < 60 := by norm_num
  simp only [calculateTickRange]
  refine ⟨?_, ?_, dvd_mul_left 60 _, dvd_mul_left 60 _⟩
  · by_cases hc : 0 ≤ t - tickRangeOf r
    · have := soldiv_mul_le_self hc hb
      linarith
    · push_neg at hc
      have := soldiv_mul_lt (le_of_lt hc) hb
      linarith
  · by_cases hc : 0 ≤ t + tickRangeOf r
    · have := soldiv_mul_gt hc hb
      linarith
    · push_neg at hc
      have := soldiv_mul_ge_self (le_of_lt hc) hb
      linarith

/-- C9 witness: the straddling property instantiated at tick 67890 with the
deployed rangePercent 15. -/
theorem C9_tick_range_witness :
    (calculateTickRange 15 67890).1 < 67890 ∧
    67890 < (calculateTickRange 15 67890).2 ∧
    (60:ℤ) ∣ (calculateTickRange 15 67890).1 ∧
    (60:ℤ) ∣ (calculateTickRange 15 67890).2 :=
  C9_tick_range_straddles_current 67890 15 (by norm_num) (by norm_num)

/-- C10: for any two positive prices and the same held balances, the
prioritized liquidity-add behaves identically — in particular the desired
amounts it passes to the venue mint are 100% of both held balances, so the
price-based prioritization branch has no effect on the minted amounts. -/
theorem C10_prioritized_price_independent (sender p1 p2 : ℕ) (tl tu : ℤ)
    (env : MintEnv) (s : Chain) (h1 : 0 < p1) (h2 : 0 < p2) :
    addLiquidityFromContractPrioritized sender p1 tl tu env s =
      addLiquidityFromContractPrioritized sender p2 tl tu env s ∧
    prioritizedAmounts (s.wbtcBal s.self) (s.usdcBal s.self) p1 =
      (s.wbtcBal s.self, s.usdcBal s.self) := by
  constructor
  · unfold addLiquidityFromContractPrioritized
    simp only [prioritizedAmounts_eq]
  · exact prioritizedAmounts_eq _ _ _

/-- C10 witness: prices 999 and 55 on the funded state yield the same
result. -/
theorem C10_prioritized_witness :
    addLiquidityFromContractPrioritized 1 999 (-1380) 1380 ⟨0, 0, 5⟩
        fundedChain =
      addLiquidityFromContractPrioritized 1 55 (-1380) 1380 ⟨0, 0, 5⟩
        fundedChain :=
  (C10_prioritized_price_independent 1 999 55 (-1380) 1380 ⟨0, 0, 5⟩
    fundedChain (by norm_num) (by norm_num)).1

end Defi
